import Mathlib

/-
  Shallow embedding of `src/core/analysis_engine.py` from the
  Video_Analyser repository, together with proofs settling the frozen
  claims about its specification.

  The effectful Python code is modelled as pure Lean functions over an
  explicit environment describing the behaviour of the external world
  (the yt-dlp download, the filesystem, and the remote inference
  service), returning the Python-level outcome (a value or a raised
  exception) together with a trace of the externally observable effects
  (generation calls, sleeps, remote-delete attempts, warning logs,
  temporary-directory lifecycle).
-/

namespace VideoAnalyser

/-- JSON values, as produced by a successful `json.loads`.  Numbers are
modelled as integers (the only numeric field exchanged with the service,
`clarity_score`, is declared `int`). -/
inductive Json where
  | null : Json
  | bool (b : Bool) : Json
  | num (n : Int) : Json
  | str (s : String) : Json
  | arr (xs : List Json) : Json
  | obj (fields : List (String × Json)) : Json

/-- The Python exception classes that appear in `analysis_engine.py`.
`downloadError` stands for `yt_dlp.utils.DownloadError`; `apiError` for
`genai.errors.APIError`, carrying `e.response.status_code` and the
(possibly unparseable, hence `Option`) JSON body of `e.response.text`;
`exception` stands for any other `Exception`. -/
inductive PyExc where
  | runtimeError (msg : String) : PyExc
  | connectionError (msg : String) : PyExc
  | valueError (msg : String) : PyExc
  | downloadError (msg : String) : PyExc
  | apiError (status : Nat) (body : Option Json) : PyExc
  | jsonDecodeError : PyExc
  | attributeError : PyExc
  | validationError (msg : String) : PyExc
  | exception (msg : String) : PyExc

/-- Rendering of a Json value by Python `str()`, as used when a value is
interpolated into an f-string.  Container rendering is abbreviated; no
code path analysed below interpolates a container. -/
def Json.pyStr : Json → String
  | .null => "None"
  | .bool true => "True"
  | .bool false => "False"
  | .num n => toString n
  | .str s => s
  | .arr _ => "<list>"
  | .obj _ => "<dict>"

/-- Python `str(e)` for each modelled exception, as used when an
exception is interpolated into an f-string. -/
def PyExc.pyStr : PyExc → String
  | .runtimeError m => m
  | .connectionError m => m
  | .valueError m => m
  | .downloadError m => m
  | .apiError st _ => "APIError " ++ toString st
  | .jsonDecodeError => "Expecting value: line 1 column 1 (char 0)"
  | .attributeError => "AttributeError"
  | .validationError m => m
  | .exception m => m

/-- The handle returned by `client.files.upload` (name and mime type are
the attributes the source reads). -/
structure UploadedFile where
  name : String
  mime_type : String

/-- The pydantic model `CommunicationAnalysis` (analysis_engine.py lines
18-22): `clarity_score : int` constrained by `Field(..., ge=0, le=100)`,
plus two required string fields. -/
structure CommunicationAnalysis where
  clarity_score : Int
  communication_focus : String
  transcript : String

/-- `CommunicationAnalysis.model_validate(data)`: succeeds exactly when
`data` is an object carrying an in-range integer `clarity_score` and
string `communication_focus` and `transcript` fields; extra fields are
ignored (pydantic default).  Numeric-string coercion of pydantic's lax
mode is not modelled; it would not affect the range check. -/
def CommunicationAnalysis.model_validate (j : Json) : Except PyExc CommunicationAnalysis :=
  match j with
  | .obj fields =>
    match fields.lookup "clarity_score", fields.lookup "communication_focus",
          fields.lookup "transcript" with
    | some (.num n), some (.str f), some (.str t) =>
      if 0 ≤ n ∧ n ≤ 100 then
        .ok ⟨n, f, t⟩
      else
        .error (.validationError "clarity_score: value out of range [0, 100]")
    | _, _, _ => .error (.validationError "CommunicationAnalysis: missing or mistyped field")
  | _ => .error (.validationError "CommunicationAnalysis: input is not an object")

/-- The transient-status test of analysis_engine.py line 162:
`e.response.status_code in (500, 503, 429)`. -/
def isTransientStatus (status : Nat) : Bool :=
  status == 500 || status == 503 || status == 429

/-- Python `dict.get(key, default)`, raising `AttributeError` when the
receiver is not a dict (as `.get` would on a non-dict json.loads
result). -/
def pyDictGet (j : Json) (k : String) (default : Json) : Except PyExc Json :=
  match j with
  | .obj fields => .ok ((fields.lookup k).getD default)
  | _ => .error .attributeError

/-- The error-detail extraction of line 168:
`json.loads(e.response.text).get('error', {}).get('message', 'No specific message provided.')`,
followed by the f-string rendering of the extracted value.  `none` for
the body means `json.loads` raises. -/
def errorDetail (body : Option Json) : Except PyExc String :=
  match body with
  | none => .error .jsonDecodeError
  | some j => do
    let e ← pyDictGet j "error" (.obj [])
    let m ← pyDictGet e "message" (.str "No specific message provided.")
    pure m.pyStr

/-- The f-string of analysis_engine.py line 169:
`f"Gemini API call failed after {attempt + 1} attempts. Detail: {e.response.status_code} - {error_detail}"`. -/
def attemptFailMsg (attemptCount status : Nat) (detail : String) : String :=
  "Gemini API call failed after " ++ toString attemptCount ++ " attempts. Detail: " ++
    toString status ++ " - " ++ detail

/-- The f-string of analysis_engine.py line 172 (the fallback raise
after the loop):
`f"Gemini API call failed after {max_retries} attempts due to model overload/unavailability."`. -/
def exhaustedMsg (max_retries : Nat) : String :=
  "Gemini API call failed after " ++ toString max_retries ++
    " attempts due to model overload/unavailability."

/-- The warning printed on line 185 when `client.files.delete` fails. -/
def deleteFailLog (f : UploadedFile) (de : PyExc) : String :=
  "[WARNING] Failed to delete uploaded file " ++ f.name ++ ". Error: " ++ de.pyStr

/-- Outcome of one `client.models.generate_content` call: a response
whose `.text` parses to `body` (`none` when `json.loads` would raise), a
`genai.errors.APIError`, or any other raised exception. -/
inductive ApiAttemptOutcome where
  | ok (body : Option Json) : ApiAttemptOutcome
  | apiError (status : Nat) (errBody : Option Json) : ApiAttemptOutcome
  | otherError (e : PyExc) : ApiAttemptOutcome

/-- Environment for one `analyze_audio_file` invocation: the upload
outcome, the outcome of each generation attempt (indexed by attempt
number), and the outcome of the final `client.files.delete`. -/
structure AnalysisEnv where
  uploadResult : Except PyExc UploadedFile
  attempts : Nat → ApiAttemptOutcome
  deleteResult : Except PyExc Unit

/-- Trace of the retry loop: number of generation calls, the sleep
durations in chronological order, and whether control fell through the
end of the `for` loop to the fallback raise of line 172. -/
structure LoopTrace where
  genCalls : Nat
  sleeps : List Nat
  fellThrough : Bool

/-- The retry loop of analysis_engine.py lines 139-172, iterating over
the attempt indices of `range(max_retries)`.  Each iteration calls
`generate_content`; on a parsed response it validates and returns; on an
`APIError` with transient status and attempts remaining it sleeps
`2 ** attempt` and continues; otherwise it raises the attempt-counting
`ConnectionError` (or the exception arising while extracting the error
detail); any other exception propagates.  The `[]` case is line 172's
fallback raise. -/
def genLoop (attempts : Nat → ApiAttemptOutcome) (max_retries : Nat) :
    List Nat → Except PyExc CommunicationAnalysis × LoopTrace
  | [] =>
    (.error (.connectionError (exhaustedMsg max_retries)), ⟨0, [], true⟩)
  | attempt :: rest =>
    match attempts attempt with
    | .ok body =>
      match body with
      | none => (.error .jsonDecodeError, ⟨1, [], false⟩)
      | some j => (CommunicationAnalysis.model_validate j, ⟨1, [], false⟩)
    | .apiError status errBody =>
      if isTransientStatus status && decide (attempt < max_retries - 1) then
        let rt := genLoop attempts max_retries rest
        (rt.1, ⟨rt.2.genCalls + 1, 2 ^ attempt :: rt.2.sleeps, rt.2.fellThrough⟩)
      else
        (match errorDetail errBody with
         | .ok detail => .error (.connectionError (attemptFailMsg (attempt + 1) status detail))
         | .error pe => .error pe,
         ⟨1, [], false⟩)
    | .otherError e => (.error e, ⟨1, [], false⟩)

/-- Trace of one `analyze_audio_file` invocation. -/
structure AnalysisTrace where
  genCalls : Nat
  sleeps : List Nat
  deleteAttempts : Nat
  logs : List String
  fellThrough : Bool

/-- `analyze_audio_file` (analysis_engine.py lines 108-185).  If the
upload fails, the outer `except Exception` re-raises it and the
`finally` block skips deletion (`uploaded_file` is still `None`).
Otherwise the retry loop runs; the outer `except Exception` re-raises
any exception unchanged; the `finally` block attempts exactly one
`client.files.delete`, logging (never re-raising) a deletion failure. -/
def analyze_audio_file (env : AnalysisEnv) (max_retries : Nat) :
    Except PyExc CommunicationAnalysis × AnalysisTrace :=
  match env.uploadResult with
  | .error e => (.error e, ⟨0, [], 0, [], false⟩)
  | .ok f =>
    let r := genLoop env.attempts max_retries (List.range max_retries)
    match env.deleteResult with
    | .ok _ => (r.1, ⟨r.2.genCalls, r.2.sleeps, 1, [], r.2.fellThrough⟩)
    | .error de =>
      (r.1, ⟨r.2.genCalls, r.2.sleeps, 1, [deleteFailLog f de], r.2.fellThrough⟩)

/-- Environment for one `extract_audio_from_url` invocation: whether the
two binary checks succeed, the outcome of `ydl.download`, whether the
expected output file exists afterwards, and the outcome of
`shutil.rmtree` on the temporary directory. -/
structure ExtractEnv where
  ffmpegOk : Bool
  ffprobeOk : Bool
  downloadResult : Except PyExc Unit
  outputExists : Bool
  rmtreeResult : Except PyExc Unit

/-- Trace of the extraction scope: whether `tempfile.mkdtemp` ran,
how many times `shutil.rmtree` was invoked, and whether the temporary
directory still exists once the scope has fully exited. -/
structure ExtractTrace where
  dirCreated : Bool
  rmtreeCalls : Nat
  finalDirExists : Bool

/-- Whether `pat` occurs at the head of `s` (character lists). -/
def startsWithChars : List Char → List Char → Bool
  | [], _ => true
  | _ :: _, [] => false
  | p :: ps, c :: cs => p == c && startsWithChars ps cs

/-- Whether `pat` occurs as a contiguous run anywhere in `s`
(character lists). -/
def containsChars (pat : List Char) : List Char → Bool
  | [] => startsWithChars pat []
  | c :: cs => startsWithChars pat (c :: cs) || containsChars pat cs

/-- Python substring containment `pat in s`. -/
def strContains (s pat : String) : Bool :=
  containsChars pat.data s.data

/-- Python `str.lower()`, character-wise (the phrases tested against it
are ASCII). -/
def lowerString (s : String) : String :=
  ⟨s.data.map Char.toLower⟩

/-- The sign-in / bot-check phrase test of analysis_engine.py line 91:
`"sign in" in msg or "confirm you're not a bot" in msg` on the lowered
failure text. -/
def hasLoginPhrase (msg : String) : Bool :=
  let m := lowerString msg
  strContains m "sign in" || strContains m "confirm you\x27re not a bot"

/-- The distinctly-worded error raised for the sign-in case (line 92). -/
def loginRequiredMsg : String :=
  "Video requires login or is age-restricted. Please use a public URL."

/-- The `except` clauses of `extract_audio_from_url` (lines 88-98),
applied to any exception raised inside its `try` block — whether by the
download, by the missing-output check, or thrown in at the `yield` when
the `with`-body raises.  A `DownloadError` is classified by its text;
every other exception is rewrapped as the generic
"Unexpected error during extraction" `RuntimeError`. -/
def classifyExtractExc : PyExc → PyExc
  | .downloadError m =>
    if hasLoginPhrase m then
      .runtimeError loginRequiredMsg
    else
      .runtimeError ("yt-dlp failed to extract audio: " ++ m)
  | e => .runtimeError ("Unexpected error during extraction: " ++ e.pyStr)

/-- The `finally` block of `extract_audio_from_url` (lines 100-103):
`shutil.rmtree(temp_dir)` runs unguarded, so if it raises, its exception
replaces whatever outcome (return or in-flight exception) was pending. -/
def finallyRmtree (ext : ExtractEnv) (pending : Except PyExc α) :
    Except PyExc α × ExtractTrace :=
  match ext.rmtreeResult with
  | .ok _ => (pending, ⟨true, 1, false⟩)
  | .error de => (.error de, ⟨true, 1, true⟩)

/-- Environment for one whole pipeline invocation. -/
structure PipelineEnv where
  ext : ExtractEnv
  ana : AnalysisEnv

/-- Trace of one whole pipeline invocation; `ana` is `none` when the
extraction failed before yielding a path, so the analysis never ran. -/
structure PipelineTrace where
  ext : ExtractTrace
  ana : Option AnalysisTrace

/-- The warning logs recorded during a pipeline invocation. -/
def PipelineTrace.logs (t : PipelineTrace) : List String :=
  (t.ana.map (fun a => a.logs)).getD []

/-- The `with extract_audio_from_url(url) as audio_path:` statement of
`process_video_insights` with `analyze_audio_file` as its body
(analysis_engine.py lines 27-103 and 197-199).  Faithful to the
`@contextmanager` semantics: if the binary check fails, the generator
raises before creating the directory; a download failure or missing
output raises through the `except` clauses and then the `finally`; when
the body raises, the exception is thrown into the generator at the
`yield`, caught by the generator's own `except Exception`, and rewrapped
before the `finally` runs. -/
def withExtractedAudio (env : PipelineEnv) (max_retries : Nat) :
    Except PyExc CommunicationAnalysis × PipelineTrace :=
  if env.ext.ffmpegOk && env.ext.ffprobeOk then
    match env.ext.downloadResult with
    | .error e =>
      let r := finallyRmtree env.ext (.error (classifyExtractExc e))
      (r.1, ⟨r.2, none⟩)
    | .ok _ =>
      if env.ext.outputExists then
        let b := analyze_audio_file env.ana max_retries
        match b.1 with
        | .ok v =>
          let r := finallyRmtree env.ext (.ok v)
          (r.1, ⟨r.2, some b.2⟩)
        | .error e =>
          let r := finallyRmtree env.ext (.error (classifyExtractExc e))
          (r.1, ⟨r.2, some b.2⟩)
      else
        let r := finallyRmtree env.ext (.error (classifyExtractExc (.runtimeError
          "yt-dlp download completed but failed to create the final MP3 file. Check post-processing logs.")))
        (r.1, ⟨r.2, none⟩)
  else
    (.error (.runtimeError
      "ffmpeg and/or ffprobe not installed. This is the root cause of the error on Streamlit Cloud."),
     ⟨⟨false, 0, false⟩, none⟩)

/-- The final translation performed by `process_video_insights`'s three
`except` clauses (lines 202-212): `RuntimeError` → `ValueError`
("Video Processing Error"), `ConnectionError` → `ConnectionError`
("API Error"), anything else → plain `Exception` ("unexpected critical
error"). -/
def orchTranslate : PyExc → PyExc
  | .runtimeError m => .valueError ("Video Processing Error: " ++ m)
  | .connectionError m => .connectionError ("API Error: " ++ m)
  | e => .exception ("An unexpected critical error occurred: " ++ e.pyStr)

/-- `process_video_insights` (analysis_engine.py lines 190-212): run the
extraction scope with the analysis stage as its body (`analyze_audio_file`
is called with its default `max_retries = 8`), then translate any raised
exception into one of the three normalized kinds. -/
def process_video_insights (env : PipelineEnv) :
    Except PyExc CommunicationAnalysis × PipelineTrace :=
  let r := withExtractedAudio env 8
  match r.1 with
  | .ok v => (.ok v, r.2)
  | .error e => (.error (orchTranslate e), r.2)

/-! ### Concrete environments used by the claim theorems -/

/-- A well-formed service error body whose extracted detail is
"bad key". -/
def errBody401 : Option Json :=
  some (.obj [("error", .obj [("message", .str "bad key")])])

/-- A well-formed service error body whose extracted detail is
"model overloaded". -/
def errBody503 : Option Json :=
  some (.obj [("error", .obj [("message", .str "model overloaded")])])

/-- A response body forming a valid `CommunicationAnalysis` payload with
clarity score 82. -/
def okBody : Option Json :=
  some (.obj [("clarity_score", .num 82), ("communication_focus", .str "Topic."),
              ("transcript", .str "Hello.")])

/-- Pipeline environment in which extraction succeeds and every
generation attempt fails with a non-transient 401 `APIError`, so the
analysis stage raises a `ConnectionError`. -/
def envAuthFail : PipelineEnv :=
  ⟨⟨true, true, .ok (), true, .ok ()⟩,
   ⟨.ok ⟨"files/abc", "audio/mp3"⟩, fun _ => .apiError 401 errBody401, .ok ()⟩⟩

/-- Pipeline environment in which the download fails (generic network
failure, the primary error) and the temporary-directory removal also
fails. -/
def envRmtreeFail : PipelineEnv :=
  ⟨⟨true, true, .error (.downloadError "network unreachable"), false,
    .error (.exception "rmtree failed: device busy")⟩,
   ⟨.error (.exception "unused"), fun _ => .otherError (.exception "unused"), .ok ()⟩⟩

/-- The same invocation as `envRmtreeFail` but with the
temporary-directory removal succeeding, exhibiting the primary error
that the cleanup failure replaced. -/
def envRmtreeOk : PipelineEnv :=
  ⟨⟨true, true, .error (.downloadError "network unreachable"), false, .ok ()⟩,
   ⟨.error (.exception "unused"), fun _ => .otherError (.exception "unused"), .ok ()⟩⟩

/-- Analysis environment in which every generation attempt fails with a
transient 503 `APIError` and the remote delete fails. -/
def envAll503 : AnalysisEnv :=
  ⟨.ok ⟨"files/abc", "audio/mp3"⟩, fun _ => .apiError 503 errBody503,
   .error (.exception "delete failed")⟩

/-- Analysis environment in which the first generation attempt succeeds
with a valid payload. -/
def envOk : AnalysisEnv :=
  ⟨.ok ⟨"files/z", "audio/mp3"⟩, fun _ => .ok okBody, .ok ()⟩

/-- Pipeline environment in which everything succeeds. -/
def envAllOk : PipelineEnv :=
  ⟨⟨true, true, .ok (), true, .ok ()⟩, envOk⟩

/-! ### Shared helper lemmas -/

/-- A successful outcome of the retry loop always comes from a payload
that passed schema validation. -/
theorem genLoop_ok_from_validate (atts : Nat → ApiAttemptOutcome) (mr : Nat) :
    ∀ (l : List Nat) (r : CommunicationAnalysis), (genLoop atts mr l).1 = .ok r →
      ∃ j, CommunicationAnalysis.model_validate j = .ok r := by
  intro l
  induction l with
  | nil => intro r h; simp [genLoop] at h
  | cons a l ih =>
    intro r h
    cases hA : atts a with
    | ok body =>
      cases body with
      | none => simp [genLoop, hA] at h
      | some j =>
        simp only [genLoop, hA] at h
        exact ⟨j, h⟩
    | apiError st bd =>
      by_cases hc : (isTransientStatus st && decide (a < mr - 1)) = true
      · simp only [genLoop, hA, hc, if_true] at h
        exact ih r h
      · simp only [genLoop, hA, hc, if_false, Bool.false_eq_true] at h
        cases hd : errorDetail bd <;> simp [hd] at h
    | otherError e => simp [genLoop, hA] at h

/-- A payload accepted by `model_validate` has its clarity score within
the declared closed range. -/
theorem validate_ok_range (j : Json) (r : CommunicationAnalysis)
    (h : CommunicationAnalysis.model_validate j = .ok r) :
    0 ≤ r.clarity_score ∧ r.clarity_score ≤ 100 := by
  cases j <;> simp only [CommunicationAnalysis.model_validate] at h
  case obj fields =>
    split at h
    · split at h
      · rename_i n f t _ _ hr
        injection h with h
        subst h
        exact hr
      · exact absurd h (by simp)
    · exact absurd h (by simp)
  all_goals exact absurd h (by simp)

/-- A payload accepted by `model_validate` is returned with the payload's
own clarity score, unmodified. -/
theorem validate_ok_score_eq (fields : List (String × Json)) (r : CommunicationAnalysis)
    (h : CommunicationAnalysis.model_validate (.obj fields) = .ok r) :
    fields.lookup "clarity_score" = some (.num r.clarity_score) := by
  simp only [CommunicationAnalysis.model_validate] at h
  split at h
  · split at h
    · rename_i n f t heq _ _ _
      injection h with h
      subst h
      exact heq
    · exact absurd h (by simp)
  · exact absurd h (by simp)

/-- The primary result of `analyze_audio_file` after a successful upload
is exactly the retry loop's result, whatever the remote-delete outcome. -/
theorem analyze_result_eq_genLoop (f : UploadedFile) (atts : Nat → ApiAttemptOutcome)
    (d : Except PyExc Unit) (mr : Nat) :
    (analyze_audio_file ⟨.ok f, atts, d⟩ mr).1 = (genLoop atts mr (List.range mr)).1 := by
  cases d <;> simp [analyze_audio_file]

/-- The retry loop never falls through the end of a nonempty attempt
range: on the final attempt index `mr - 1`, the transient branch's
`attempt < max_retries - 1` guard fails, so the iteration returns or
raises. -/
theorem genLoop_no_fellThrough (atts : Nat → ApiAttemptOutcome) (mr : Nat) :
    ∀ (n a : Nat), a + n = mr → 1 ≤ n →
      (genLoop atts mr (List.range' a n)).2.fellThrough = false := by
  intro n
  induction n with
  | zero => intro a _ h1; exact absurd h1 (by omega)
  | succ k ih =>
    intro a hsum _
    rw [List.range'_succ]
    cases hA : atts a with
    | ok body => cases body <;> simp [genLoop, hA]
    | apiError st bd =>
      by_cases hc : (isTransientStatus st && decide (a < mr - 1)) = true
      · have hk : 1 ≤ k := by
          have h2 := (Bool.and_eq_true _ _).mp hc
          have h3 := of_decide_eq_true h2.2
          omega
        simp only [genLoop, hA, hc, if_true]
        simpa using ih (a + 1) (by omega) hk
      · simp only [genLoop, hA, hc, if_false, Bool.false_eq_true]
    | otherError e => simp [genLoop, hA]

/-- The trace of `process_video_insights` is the trace of its extraction
scope: the orchestrator's final translation touches only the raised
error. -/
theorem process_trace_eq (env : PipelineEnv) :
    (process_video_insights env).2 = (withExtractedAudio env 8).2 := by
  unfold process_video_insights
  cases h : (withExtractedAudio env 8).1 <;> simp [h]

/-! ### Claim theorems -/

/-- Claim C3: for every invocation of `analyze_audio_file` whose upload
produced a remote artifact handle, exactly one deletion attempt of that
artifact occurs on every exit path (success, retry exhaustion, or
non-retryable error); the primary outcome is exactly the retry loop's
outcome no matter how the deletion attempt ends (so a deletion failure
is never re-raised), and a failing deletion attempt is logged. -/
theorem claim_C3_exactly_one_delete (f : UploadedFile) (atts : Nat → ApiAttemptOutcome)
    (d : Except PyExc Unit) (de : PyExc) (mr : Nat) :
    (analyze_audio_file ⟨.ok f, atts, d⟩ mr).2.deleteAttempts = 1
    ∧ (analyze_audio_file ⟨.ok f, atts, d⟩ mr).1 = (genLoop atts mr (List.range mr)).1
    ∧ (analyze_audio_file ⟨.ok f, atts, .error de⟩ mr).2.logs = [deleteFailLog f de] := by
  refine ⟨?_, analyze_result_eq_genLoop f atts d mr, ?_⟩
  · cases d <;> simp [analyze_audio_file]
  · simp [analyze_audio_file]

/-- Claim C9: if the initial file upload fails, `analyze_audio_file`
propagates that failure unchanged and issues zero remote-delete calls
(the `finally` block's guard sees no uploaded-file handle). -/
theorem claim_C9_upload_failure_no_delete (e : PyExc) (atts : Nat → ApiAttemptOutcome)
    (d : Except PyExc Unit) (mr : Nat) :
    (analyze_audio_file ⟨.error e, atts, d⟩ mr).1 = .error e
    ∧ (analyze_audio_file ⟨.error e, atts, d⟩ mr).2.deleteAttempts = 0 := by
  simp [analyze_audio_file]

/-- Claim C10: for every `max_retries ≥ 1`, the retry loop never
completes without returning or raising — control never falls through to
the fallback `ConnectionError` after the loop. -/
theorem claim_C10_fallback_unreachable (env : AnalysisEnv) (mr : Nat) (h : 1 ≤ mr) :
    (analyze_audio_file env mr).2.fellThrough = false := by
  cases hU : env.uploadResult with
  | error e => simp [analyze_audio_file, hU]
  | ok f =>
    have hg := genLoop_no_fellThrough env.attempts mr mr 0 (by omega) h
    rw [← List.range_eq_range'] at hg
    cases hD : env.deleteResult <;> simp [analyze_audio_file, hU, hD, hg]

/-- Witness for claim C10 at a concrete environment and
`max_retries = 1`. -/
theorem claim_C10_witness : (analyze_audio_file envOk 1).2.fellThrough = false :=
  claim_C10_fallback_unreachable envOk 1 (by norm_num)

/-- Claim C7: an `AnalysisResult` is returned to the caller only if its
clarity score is an integer in the closed range [0, 100]; the returned
score is the payload's own value (never clamped), and a payload whose
clarity score lies outside the range fails validation and is never
returned. -/
theorem claim_C7_clarity_range :
    (∀ (env : AnalysisEnv) (mr : Nat) (r : CommunicationAnalysis),
        (analyze_audio_file env mr).1 = .ok r →
        0 ≤ r.clarity_score ∧ r.clarity_score ≤ 100)
    ∧ (∀ (fields : List (String × Json)) (r : CommunicationAnalysis),
        CommunicationAnalysis.model_validate (.obj fields) = .ok r →
        fields.lookup "clarity_score" = some (.num r.clarity_score))
    ∧ (∀ (fields : List (String × Json)) (n : Int),
        fields.lookup "clarity_score" = some (.num n) → (n < 0 ∨ 100 < n) →
        ∀ r, CommunicationAnalysis.model_validate (.obj fields) ≠ .ok r) := by
  refine ⟨?_, validate_ok_score_eq, ?_⟩
  · intro env mr r h
    cases hU : env.uploadResult with
    | error e => simp [analyze_audio_file, hU] at h
    | ok f =>
      rw [show env = ⟨env.uploadResult, env.attempts, env.deleteResult⟩ from rfl, hU,
        analyze_result_eq_genLoop] at h
      obtain ⟨j, hj⟩ := genLoop_ok_from_validate env.attempts mr (List.range mr) r h
      exact validate_ok_range j r hj
  · intro fields n hl hout r h
    have hs := validate_ok_score_eq fields r h
    have hrange := validate_ok_range (.obj fields) r h
    rw [hl] at hs
    injection hs with hs
    cases hs
    omega

/-- Witness for claim C7: a concrete invocation returning a score of 82,
and a concrete out-of-range payload that is rejected. -/
theorem claim_C7_witness :
    ((0 : Int) ≤ 82 ∧ (82 : Int) ≤ 100)
    ∧ ∀ r, CommunicationAnalysis.model_validate
        (.obj [("clarity_score", .num 120), ("communication_focus", .str "f"),
               ("transcript", .str "t")]) ≠ .ok r :=
  ⟨claim_C7_clarity_range.1 envOk 8 ⟨82, "Topic.", "Hello."⟩ rfl,
   claim_C7_clarity_range.2.2
     [("clarity_score", .num 120), ("communication_focus", .str "f"), ("transcript", .str "t")]
     120 rfl (by norm_num)⟩

/-- Claim C4: with `max_retries = 8` and every generation attempt
failing with a transient status (500, 503 or 429) whose error body
yields a detail, the stage makes exactly 8 attempts, sleeps 1, 2, 4, 8,
16, 32, 64 units between consecutive attempts, and raises a
`ConnectionError` reporting exactly 8 attempts, with no further retry. -/
theorem claim_C4_transient_exhaustion (f : UploadedFile) (d : Except PyExc Unit)
    (atts : Nat → ApiAttemptOutcome) (st : Nat → Nat) (bd : Nat → Option Json)
    (detail : String)
    (hatt : ∀ i, i < 8 → atts i = .apiError (st i) (bd i))
    (htr : ∀ i, i < 8 → isTransientStatus (st i) = true)
    (hdet : errorDetail (bd 7) = .ok detail) :
    (analyze_audio_file ⟨.ok f, atts, d⟩ 8).1 =
      .error (.connectionError (attemptFailMsg 8 (st 7) detail))
    ∧ (analyze_audio_file ⟨.ok f, atts, d⟩ 8).2.genCalls = 8
    ∧ (analyze_audio_file ⟨.ok f, atts, d⟩ 8).2.sleeps = [1, 2, 4, 8, 16, 32, 64] := by
  have h0 := hatt 0 (by norm_num); have h1 := hatt 1 (by norm_num)
  have h2 := hatt 2 (by norm_num); have h3 := hatt 3 (by norm_num)
  have h4 := hatt 4 (by norm_num); have h5 := hatt 5 (by norm_num)
  have h6 := hatt 6 (by norm_num); have h7 := hatt 7 (by norm_num)
  have t0 := htr 0 (by norm_num); have t1 := htr 1 (by norm_num)
  have t2 := htr 2 (by norm_num); have t3 := htr 3 (by norm_num)
  have t4 := htr 4 (by norm_num); have t5 := htr 5 (by norm_num)
  have t6 := htr 6 (by norm_num); have t7 := htr 7 (by norm_num)
  have hr : List.range 8 = [0, 1, 2, 3, 4, 5, 6, 7] := by decide
  have hg : genLoop atts 8 (List.range 8) =
      (.error (.connectionError (attemptFailMsg 8 (st 7) detail)),
       ⟨8, [1, 2, 4, 8, 16, 32, 64], false⟩) := by
    rw [hr]
    simp [genLoop, h0, h1, h2, h3, h4, h5, h6, h7, t0, t1, t2, t3, t4, t5, t6, t7, hdet]
  cases d <;> simp [analyze_audio_file, hg]

/-- Witness for claim C4: eight consecutive 503 failures at a concrete
environment. -/
theorem claim_C4_witness :
    (analyze_audio_file envAll503 8).1 =
      .error (.connectionError (attemptFailMsg 8 503 "model overloaded"))
    ∧ (analyze_audio_file envAll503 8).2.genCalls = 8
    ∧ (analyze_audio_file envAll503 8).2.sleeps = [1, 2, 4, 8, 16, 32, 64] :=
  claim_C4_transient_exhaustion ⟨"files/abc", "audio/mp3"⟩ (.error (.exception "delete failed"))
    (fun _ => .apiError 503 errBody503) (fun _ => 503) (fun _ => errBody503)
    "model overloaded" (fun _ _ => rfl) (fun _ _ => rfl) rfl

/-- Claim C5: when the first generation attempt fails with a
non-transient status, the stage raises the attempt-counting
`ConnectionError` immediately — one generation call, no backoff sleep —
and the message carries the attempt count (1) and the service-reported
status and detail. -/
theorem claim_C5_nontransient_immediate (f : UploadedFile) (d : Except PyExc Unit)
    (atts : Nat → ApiAttemptOutcome) (st : Nat) (bd : Option Json) (detail : String)
    (mr : Nat) (hmr : 1 ≤ mr)
    (h0 : atts 0 = .apiError st bd)
    (hnt : isTransientStatus st = false)
    (hdet : errorDetail bd = .ok detail) :
    (analyze_audio_file ⟨.ok f, atts, d⟩ mr).1 =
      .error (.connectionError (attemptFailMsg 1 st detail))
    ∧ (analyze_audio_file ⟨.ok f, atts, d⟩ mr).2.genCalls = 1
    ∧ (analyze_audio_file ⟨.ok f, atts, d⟩ mr).2.sleeps = [] := by
  obtain ⟨m, rfl⟩ : ∃ m, mr = m + 1 := ⟨mr - 1, by omega⟩
  have hg : genLoop atts (m + 1) (List.range (m + 1)) =
      (.error (.connectionError (attemptFailMsg 1 st detail)), ⟨1, [], false⟩) := by
    rw [List.range_succ_eq_map]
    simp [genLoop, h0, hnt, hdet]
  cases d <;> simp [analyze_audio_file, hg]

/-- Witness for claim C5: a 401 authentication failure on the first
attempt at a concrete environment. -/
theorem claim_C5_witness :
    (analyze_audio_file envAuthFail.ana 8).1 =
      .error (.connectionError (attemptFailMsg 1 401 "bad key"))
    ∧ (analyze_audio_file envAuthFail.ana 8).2.genCalls = 1
    ∧ (analyze_audio_file envAuthFail.ana 8).2.sleeps = [] :=
  claim_C5_nontransient_immediate ⟨"files/abc", "audio/mp3"⟩ (.ok ())
    (fun _ => .apiError 401 errBody401) 401 errBody401 "bad key" 8
    (by norm_num) rfl rfl rfl

/-- Claim C6: provided the filesystem removal itself succeeds, the
temporary directory allocated by the extraction stage does not exist
after the pipeline returns or raises, on the normal-return path and on
every failure-unwinding path (when the binary check fails, no directory
is ever allocated). -/
theorem claim_C6_no_leaked_tempdir (env : PipelineEnv)
    (h : env.ext.rmtreeResult = .ok ()) :
    (process_video_insights env).2.ext.finalDirExists = false := by
  rw [process_trace_eq]
  unfold withExtractedAudio
  cases hB : (env.ext.ffmpegOk && env.ext.ffprobeOk)
  · simp
  · simp only [if_true]
    cases hD : env.ext.downloadResult with
    | error e => simp [finallyRmtree, h]
    | ok u =>
      cases hO : env.ext.outputExists
      · simp [finallyRmtree, h]
      · cases hA : (analyze_audio_file env.ana 8).1 <;> simp [finallyRmtree, h, hA]

/-- Witness for claim C6 at a concrete, fully successful invocation. -/
theorem claim_C6_witness :
    (process_video_insights envAllOk).2.ext.finalDirExists = false :=
  claim_C6_no_leaked_tempdir envAllOk rfl

/-- Claim C8: a download-layer failure whose text carries a known
sign-in / bot-check phrase is rewrapped into the distinct
login/age-restriction error instructing that the resource must be
public; any other download-layer failure is rewrapped into the generic
extraction-failure error carrying the underlying message; the two
messages are distinct, and the extraction scope raises exactly the
classified error. -/
theorem claim_C8_download_error_classification :
    (∀ (env : PipelineEnv) (mr : Nat) (m : String),
        env.ext.ffmpegOk = true → env.ext.ffprobeOk = true →
        env.ext.downloadResult = .error (.downloadError m) →
        env.ext.rmtreeResult = .ok () →
        (withExtractedAudio env mr).1 = .error (classifyExtractExc (.downloadError m)))
    ∧ (∀ m, hasLoginPhrase m = true →
        classifyExtractExc (.downloadError m) = .runtimeError loginRequiredMsg)
    ∧ (∀ m, hasLoginPhrase m = false →
        classifyExtractExc (.downloadError m) =
          .runtimeError ("yt-dlp failed to extract audio: " ++ m))
    ∧ (∀ m, loginRequiredMsg ≠ "yt-dlp failed to extract audio: " ++ m) := by
  refine ⟨?_, ?_, ?_, ?_⟩
  · intro env mr m hF hP hD hR
    unfold withExtractedAudio
    simp [hF, hP, hD, finallyRmtree, hR]
  · intro m hm
    simp [classifyExtractExc, hm]
  · intro m hm
    simp [classifyExtractExc, hm]
  · intro m h
    obtain ⟨l⟩ := m
    have h2 : (some 'V' : Option Char) = some 'y' :=
      congrArg (fun s => s.data.head?) h
    simp at h2

/-- Witness for claim C8: concrete classifications of a sign-in failure
text and a generic network failure text, and the extraction scope
raising the classified error at a concrete environment. -/
theorem claim_C8_witness :
    (withExtractedAudio envRmtreeOk 8).1 =
      .error (classifyExtractExc (.downloadError "network unreachable"))
    ∧ classifyExtractExc (.downloadError "ERROR: Sign in to confirm your age") =
      .runtimeError loginRequiredMsg
    ∧ classifyExtractExc (.downloadError "network unreachable") =
      .runtimeError ("yt-dlp failed to extract audio: " ++ "network unreachable")
    ∧ loginRequiredMsg ≠ "yt-dlp failed to extract audio: " ++ "network unreachable" :=
  ⟨claim_C8_download_error_classification.1 envRmtreeOk 8 "network unreachable"
      rfl rfl rfl rfl,
   claim_C8_download_error_classification.2.1 "ERROR: Sign in to confirm your age" (by decide),
   claim_C8_download_error_classification.2.2.1 "network unreachable" (by decide),
   claim_C8_download_error_classification.2.2.2 "network unreachable"⟩

/-- Claim C1 is violated by the code: at the concrete environment below,
extraction succeeds and the Analysis Stage raises a `ConnectionError`
(first conjunct), yet the pipeline's caller observes a `ValueError` of
the video-processing kind (second conjunct), because the exception is
thrown into `extract_audio_from_url` at its `yield`, caught by that
generator's own `except Exception` clause, rewrapped as a
`RuntimeError`, and then translated by the orchestrator's
`except RuntimeError` clause — the orchestrator's `except
ConnectionError` pass-through never fires. -/
theorem claim_C1_connectionError_rewrapped :
    (analyze_audio_file envAuthFail.ana 8).1 =
      .error (.connectionError (attemptFailMsg 1 401 "bad key"))
    ∧ (process_video_insights envAuthFail).1 =
      .error (.valueError ("Video Processing Error: Unexpected error during extraction: " ++
        attemptFailMsg 1 401 "bad key")) :=
  ⟨rfl, rfl⟩

/-- Claim C2, counterexample: at the concrete environment
`envRmtreeFail` a primary failure is in flight (the download failed) and
the temporary-directory removal also fails; the removal failure is
raised in place of the primary error (first conjunct) with nothing
logged (second conjunct), whereas the identical invocation with a
working removal reports the primary error (third conjunct). -/
theorem claim_C2_counterexample :
    (process_video_insights envRmtreeFail).1 =
      .error (.exception "An unexpected critical error occurred: rmtree failed: device busy")
    ∧ (process_video_insights envRmtreeFail).2.logs = []
    ∧ (process_video_insights envRmtreeOk).1 =
      .error (.valueError
        "Video Processing Error: yt-dlp failed to extract audio: network unreachable") :=
  ⟨rfl, rfl, by rfl⟩

/-- Claim C2 as amended: a failure of the remote-artifact deletion is
logged and never changes the primary outcome (first two conjuncts); but
a failure of the local temporary-directory removal is neither caught nor
logged — whenever the directory was created, it replaces the in-flight
primary outcome and, after the orchestrator's translation, becomes the
invocation's reported error (third conjunct). -/
theorem claim_C2_amended :
    (∀ (up : Except PyExc UploadedFile) (atts : Nat → ApiAttemptOutcome)
       (d1 d2 : Except PyExc Unit) (mr : Nat),
        (analyze_audio_file ⟨up, atts, d1⟩ mr).1 = (analyze_audio_file ⟨up, atts, d2⟩ mr).1)
    ∧ (∀ (f : UploadedFile) (atts : Nat → ApiAttemptOutcome) (de : PyExc) (mr : Nat),
        (analyze_audio_file ⟨.ok f, atts, .error de⟩ mr).2.logs = [deleteFailLog f de])
    ∧ (∀ (env : PipelineEnv) (de : PyExc),
        env.ext.ffmpegOk = true → env.ext.ffprobeOk = true →
        env.ext.rmtreeResult = .error de →
        (process_video_insights env).1 = .error (orchTranslate de)) := by
  refine ⟨?_, ?_, ?_⟩
  · intro up atts d1 d2 mr
    cases up <;> cases d1 <;> cases d2 <;> simp [analyze_audio_file]
  · intro f atts de mr
    simp [analyze_audio_file]
  · intro env de hF hP hR
    unfold process_video_insights withExtractedAudio
    simp only [hF, hP, Bool.and_self, if_true]
    cases hD : env.ext.downloadResult with
    | error e => simp [finallyRmtree, hR]
    | ok u =>
      cases hO : env.ext.outputExists
      · simp [finallyRmtree, hR]
      · cases hA : (analyze_audio_file env.ana 8).1 <;> simp [finallyRmtree, hR, hA]

/-- Witness for the amended claim C2 at concrete environments: the
analysis outcome is unchanged by the remote-delete outcome, the delete
failure is logged, and a failing directory removal surfaces as the
reported error. -/
theorem claim_C2_amended_witness :
    (analyze_audio_file ⟨.ok ⟨"files/z", "audio/mp3"⟩, fun _ => .ok okBody,
        .error (.exception "delete failed")⟩ 8).1 =
      (analyze_audio_file ⟨.ok ⟨"files/z", "audio/mp3"⟩, fun _ => .ok okBody, .ok ()⟩ 8).1
    ∧ (analyze_audio_file ⟨.ok ⟨"files/z", "audio/mp3"⟩, fun _ => .ok okBody,
        .error (.exception "delete failed")⟩ 8).2.logs =
      [deleteFailLog ⟨"files/z", "audio/mp3"⟩ (.exception "delete failed")]
    ∧ (process_video_insights envRmtreeFail).1 =
      .error (orchTranslate (.exception "rmtree failed: device busy")) :=
  ⟨claim_C2_amended.1 (.ok ⟨"files/z", "audio/mp3"⟩) (fun _ => .ok okBody)
      (.error (.exception "delete failed")) (.ok ()) 8,
   claim_C2_amended.2.1 ⟨"files/z", "audio/mp3"⟩ (fun _ => .ok okBody)
      (.exception "delete failed") 8,
   claim_C2_amended.2.2 envRmtreeFail (.exception "rmtree failed: device busy") rfl rfl rfl⟩

end VideoAnalyser
